import Mathlib

/-!
# Verification of the alpha opportunity pipeline

Shallow embedding of the core pipeline of the `hog-sys/alpha` repository:
the persistence consumer (`src/services/persistence_service.py`), the scout
runner driving loops (`src/scouts/*_runner.py`), and the contract scout's
per-address analysis (`src/scouts/contract_runner.py`), together with the
signal factory `create_opportunity` (whose defining module `base_scout.py`
is not part of the sources and is therefore modelled from the spec).

External boundaries (JSON decoding, the AMQP broker, the database
connection) are modelled as explicit inputs: a broker message carries
either a decoded JSON object or a marker that `json.loads` raises, and the
database connection's health is a boolean parameter of each insert.
-/

mutual
/-- A JSON value as produced by `json.loads` on a decoded message body.
Numbers are modelled as rationals; arrays and objects carry their own
spine types so that equality is derivable. -/
inductive JValue where
  | jnull : JValue
  | jbool : Bool → JValue
  | jnum : ℚ → JValue
  | jstr : String → JValue
  | jarr : JItems → JValue
  | jobj : JFields → JValue

/-- The elements of a JSON array. -/
inductive JItems where
  | nil : JItems
  | cons : JValue → JItems → JItems

/-- The fields of a nested JSON object. -/
inductive JFields where
  | nil : JFields
  | cons : String → JValue → JFields → JFields
end
deriving instance DecidableEq for JValue, JItems, JFields

/-- A decoded JSON object (Python `dict`): an association list of fields. -/
abbrev Payload := List (String × JValue)

/-- Python `data[k]` / `data.get(k)`: the value of the first field named `k`. -/
def lookupField (p : Payload) (k : String) : Option JValue :=
  (p.find? (fun kv => kv.1 = k)).map (fun kv => kv.2)

/-- Exceptions that the storage layer (`conn.execute` / `conn.commit`) can
raise: a dropped/unavailable connection, or a duplicate-key integrity error
from the plain `INSERT` hitting the table's unique `id` key. -/
inductive DBError where
  | connectionError : DBError
  | duplicateKey : DBError
deriving DecidableEq

/-- Exceptions that can escape the `try` body of
`PersistenceService.on_message`. -/
inductive PyExn where
  | jsonDecodeError : PyExn
  | keyError : String → PyExn
  | dbError : DBError → PyExn
deriving DecidableEq

/-- A row of the `alpha_opportunities` table, mirroring the columns named in
the `insert(...).values(...)` call of `on_message`. -/
structure Row where
  id : JValue
  scout_name : JValue
  signal_type : JValue
  symbol : JValue
  confidence : JValue
  data : JValue
  timestamp : JValue
  expires_at : Option JValue
deriving DecidableEq

/-- The Store: the `alpha_opportunities` table as a list of rows in insert
order. -/
abbrev Store := List Row

/-- Modelled from the spec: the table schema lives in `src/core/database.py`,
which is not among the sources; per §6 the table is "keyed uniquely by
signal `id`".  The statement built by `on_message` is a plain
`sqlalchemy.insert` with no on-conflict clause (that much is in the
source), so executing it with an unhealthy connection raises a connection
error, and executing it when a row with the same `id` already exists raises
a duplicate-key integrity error; otherwise the row is appended. -/
def executeInsert (table : Store) (connOk : Bool) (r : Row) : Except DBError Store :=
  if !connOk then .error .connectionError
  else if table.any (fun row => row.id == r.id) then .error .duplicateKey
  else .ok (table ++ [r])

/-- A broker message as seen by `on_message`: either its body fails
`json.loads` (raising `JSONDecodeError`), or it decodes to a JSON object. -/
inductive Message where
  | invalidJson : String → Message
  | jsonBody : Payload → Message
deriving DecidableEq

/-- The validation step of `on_message`:
`all(k in data for k in ['id', 'scout_name', 'symbol', 'timestamp'])`. -/
def validatePayload (p : Payload) : Bool :=
  ["id", "scout_name", "symbol", "timestamp"].all
    (fun k => (lookupField p k).isSome)

/-- Building the values of the insert statement.  Python evaluates the
keyword arguments of `.values(...)` left to right, so the subscript
lookups run in source order (`id`, `scout_name`, `signal_type`, `symbol`,
`confidence`, `data`, `timestamp`); the first missing key raises
`KeyError`.  `expires_at` uses `data.get(...)` and cannot raise. -/
def buildRow (p : Payload) : Except PyExn Row := do
  let idv ← match lookupField p "id" with
    | some v => Except.ok v
    | none => Except.error (.keyError "id")
  let sn ← match lookupField p "scout_name" with
    | some v => Except.ok v
    | none => Except.error (.keyError "scout_name")
  let st ← match lookupField p "signal_type" with
    | some v => Except.ok v
    | none => Except.error (.keyError "signal_type")
  let sym ← match lookupField p "symbol" with
    | some v => Except.ok v
    | none => Except.error (.keyError "symbol")
  let conf ← match lookupField p "confidence" with
    | some v => Except.ok v
    | none => Except.error (.keyError "confidence")
  let dat ← match lookupField p "data" with
    | some v => Except.ok v
    | none => Except.error (.keyError "data")
  let ts ← match lookupField p "timestamp" with
    | some v => Except.ok v
    | none => Except.error (.keyError "timestamp")
  Except.ok
    { id := idv, scout_name := sn, signal_type := st, symbol := sym,
      confidence := conf, data := dat, timestamp := ts,
      expires_at := lookupField p "expires_at" }

/-- The `try` body of `on_message`: decode, validate (an early `return`
on failure is a normal, non-raising exit), build the insert, execute it.
The result is the new table contents, or the exception that escapes the
`try` body into the `except` clauses. -/
def tryBody (table : Store) (connOk : Bool) (m : Message) : Except PyExn Store :=
  match m with
  | .invalidJson _ => .error .jsonDecodeError
  | .jsonBody p =>
    if !validatePayload p then .ok table
    else match buildRow p with
      | .error e => .error e
      | .ok r =>
        match executeInsert table connOk r with
        | .error e => .error (.dbError e)
        | .ok t => .ok t

/-- The `except` clauses of `on_message`: `except json.JSONDecodeError`
logs, and `except Exception` logs and `pass`es (the code comments that not
acking is possible but explicitly acks to avoid a redelivery loop).  Every
exception is caught, so the result pairs the table with the exception that
escapes the handlers — always `none`. -/
def exceptClauses (table : Store) (r : Except PyExn Store) :
    Store × Option PyExn :=
  match r with
  | .ok t => (t, none)
  | .error .jsonDecodeError => (table, none)
  | .error _ => (table, none)

/-- `PersistenceService.on_message`: the `try`/`except` body runs inside
`async with message.process()`, which acknowledges the message when the
block exits without an exception and rejects it otherwise.  Returns the
new table contents and whether the message was acknowledged. -/
def on_message (table : Store) (connOk : Bool) (m : Message) : Store × Bool :=
  let res := exceptClauses table (tryBody table connOk m)
  (res.1, res.2.isNone)

/-- The consumer's session loop (`async for message in queue_iter`), with
prefetch 1: messages are handled strictly one after another. -/
def processMessages (connOk : Bool) (table : Store) (ms : List Message) : Store :=
  ms.foldl (fun t m => (on_message t connOk m).1) table

/-! ## The consumer's `run` loop (`PersistenceService.run`) -/

/-- One way the body of the `while True` loop in `PersistenceService.run`
can end an iteration.  `connect_robust` raising is an
`AMQPConnectionError`; any later failure of the session (channel error,
iterator failure) is an arbitrary `Exception` raised after some prefix of
messages was processed; external cancellation (`KeyboardInterrupt`,
`asyncio.CancelledError`) is a `BaseException` that is *not* an
`Exception` and matches neither handler. -/
inductive LoopEvent where
  | amqpConnectionError : LoopEvent
  | sessionException : List Message → LoopEvent
  | cancelled : LoopEvent
deriving DecidableEq

/-- The observable state of the persistence service: the table contents and
the durations of the `asyncio.sleep` calls made so far. -/
structure ServiceState where
  store : Store
  sleeps : List Nat
deriving DecidableEq

/-- One iteration of the `while True` loop in `PersistenceService.run`:
`except aio_pika.exceptions.AMQPConnectionError` logs and sleeps 10
seconds; `except Exception` logs and sleeps 10 seconds; together the two
handlers catch every `Exception`, so only a `BaseException` (external
cancellation) escapes the loop, modelled as `Except.error`. -/
def runIteration (connOk : Bool) (st : ServiceState) (e : LoopEvent) :
    Except ServiceState ServiceState :=
  match e with
  | .amqpConnectionError => .ok { st with sleeps := st.sleeps ++ [10] }
  | .sessionException ms =>
      .ok { store := processMessages connOk st.store ms,
            sleeps := st.sleeps ++ [10] }
  | .cancelled => .error st

/-- `PersistenceService.run` driven by a finite trace of iteration events:
folds `runIteration` over the trace, stopping only when an event escapes
the `except` handlers.  The boolean records whether the loop has exited
(`true`) or is still running (`false`). -/
def runLoop (connOk : Bool) (st : ServiceState) :
    List LoopEvent → ServiceState × Bool
  | [] => (st, false)
  | e :: es =>
    match runIteration connOk st e with
    | .ok st' => runLoop connOk st' es
    | .error st' => (st', true)

/-! ## The scout runner driving loop

All five runner entry points (`market_runner.main`, `chain_runner.main`,
`defi_runner.main`, `contract_runner.main`, `sentiment_runner.main`) share
the same shape:

```
await scout.initialize()
try:
    while True:
        opps = await scout.scan()
        await scout.publish_opportunities(opps)
        await asyncio.sleep(interval)
except KeyboardInterrupt:
    logger.info(...)
finally:
    await scout.cleanup()
```
-/

/-- What the `n`-th iteration of a runner's scan loop does: `scan()`
returns normally with some signals, `scan()` raises an unexpected
exception, or a `KeyboardInterrupt` / cancellation arrives at an await
point of the iteration. -/
inductive IterEvent where
  | scanOk : Nat → IterEvent
  | scanRaises : IterEvent
  | interrupt : IterEvent
deriving DecidableEq

/-- How the runner's `try` block ended. -/
inductive LoopExit where
  | interrupted : LoopExit
  | crashed : LoopExit
deriving DecidableEq

/-- The observable outcome of driving a runner loop: how many times
`scan()` was called, how many times `cleanup()` ran, and whether (and how)
the `try` block ended.  `exit = none` means the loop is still running. -/
structure RunnerTrace where
  scanCalls : Nat
  cleanups : Nat
  exit : Option LoopExit
deriving DecidableEq

/-- The `try`/`except KeyboardInterrupt`/`finally` driving loop of a scout
runner's `main`, driven for at most `fuel` iterations by the event stream
`iters`.  A normal iteration scans, publishes, sleeps and loops.  An
exception raised by `scan()` matches no `except` clause (only
`KeyboardInterrupt` is handled), so it runs the `finally` (one `cleanup()`
call) and propagates out of `main`.  An interrupt is caught by the
`except`, then the `finally` runs `cleanup()` once and `main` returns. -/
def runnerLoop (iters : Nat → IterEvent) : Nat → Nat → RunnerTrace
  | 0, i => { scanCalls := i, cleanups := 0, exit := none }
  | fuel + 1, i =>
    match iters i with
    | .scanOk _ => runnerLoop iters fuel (i + 1)
    | .scanRaises => { scanCalls := i + 1, cleanups := 1, exit := some .crashed }
    | .interrupt => { scanCalls := i, cleanups := 1, exit := some .interrupted }

/-- A runner's `main`, starting at iteration 0.  The `scanCalls` field of
the result counts every invocation of `scout.scan()`, including one that
raised. -/
def runnerMain (iters : Nat → IterEvent) (fuel : Nat) : RunnerTrace :=
  runnerLoop iters fuel 0

/-! ## The signal factory and the contract scout -/

/-- An opportunity signal as produced by the factory.  `base_scout.py` is
not among the sources; the shape follows §3 of the spec. -/
structure OpportunitySignal where
  id : String
  scout_name : String
  signal_type : String
  symbol : String
  confidence : ℚ
  data : JFields
  timestamp : ℚ
  expires_at : ℚ
deriving DecidableEq

/-- Modelled from the spec: `BaseScout.create_opportunity` is defined in
`base_scout.py`, which is not among the sources.  Per §3/§4.1 it is "the
sole signal-construction entry point; stamps id/timestamp/expiry and
clamps confidence to [0,1]", with `expires_at` derived from the
scout-supplied `expires_in_minutes`.  The freshly stamped id and the
current time are passed in explicitly. -/
def create_opportunity (scoutName idStamp : String) (now : ℚ)
    (signalType symbol : String) (confidence : ℚ) (data : JFields)
    (expiresInMinutes : ℚ) : OpportunitySignal :=
  { id := idStamp, scout_name := scoutName, signal_type := signalType,
    symbol := symbol,
    confidence := min 1 (max 0 confidence),
    data := data, timestamp := now,
    expires_at := now + expiresInMinutes * 60 }

/-- The GoPlus answer for one address, after
`data.get("result", {}).get(address, {})`: `none` stands for the empty
(falsy) dict.  `total_score` is
`goplus.get("token_security", {}).get("total_score", 100)`: `none` when
either level of the dict lacks the key, in which case the code defaults to
100. -/
structure GoPlusInfo where
  total_score : Option ℚ
deriving DecidableEq

/-- The Etherscan source-code answer for one address; `none` at the outer
level stands for the empty (falsy) dict returned when the API key is
absent or the status is not "1". -/
structure EtherscanInfo where
  sourceCode : Option String
  contractCreator : Option String
deriving DecidableEq

/-- The external world as `ContractScout` sees it during one scan: the
outcome of `fetch_goplus` and `fetch_etherscan_source` per address
(`Except.error` is an exception raised by the fetch — timeout, HTTP or
JSON error), the configured chain, the id the factory stamps for the
address's signal, and the current time. -/
structure FetchEnv where
  goplus : String → Except String (Option GoPlusInfo)
  etherscan : String → Except String (Option EtherscanInfo)
  chain : String
  mkId : String → String
  now : ℚ

/-- The `goplus` dict as stored into the signal's `data` payload. -/
def GoPlusInfo.toJ (g : GoPlusInfo) : JValue :=
  .jobj (match g.total_score with
    | some q =>
        .cons "token_security" (.jobj (.cons "total_score" (.jnum q) .nil)) .nil
    | none => .nil)

/-- The `try` block of `ContractScout.analyze_address`: await both fetches
(an exception in either propagates out of `asyncio.gather`), return `None`
for an empty GoPlus answer, otherwise score the contract and build the
signal via `create_opportunity`. -/
def analyzeAddressBody (env : FetchEnv) (address : String) :
    Except String (Option OpportunitySignal) := do
  let goplus ← env.goplus address
  let etherscan ← env.etherscan address
  match goplus with
  | none => pure none
  | some g =>
    let riskScore := g.total_score.getD 100
    let confidence := max (1/10 : ℚ) ((100 - riskScore) / 100)
    let highRisk : Bool := decide (riskScore > 60)
    let verified : Bool := match etherscan with
      | some es => decide (es.sourceCode.getD "" ≠ "")
      | none => false
    let creator : Option String := match etherscan with
      | some es => es.contractCreator
      | none => none
    let signalType := if highRisk then "high_risk_contract" else "low_risk_contract"
    let payload : JFields :=
      .cons "goplus" g.toJ
        (.cons "verified" (.jbool verified)
          (.cons "creator" (match creator with
              | some c => .jstr c
              | none => .jnull)
            (.cons "chain" (.jstr env.chain) .nil)))
    pure (some (create_opportunity "contract_scout" (env.mkId address) env.now
      signalType address confidence payload 60))

/-- `ContractScout.analyze_address`: the whole body is wrapped in
`try ... except Exception: log; return None`, so a per-item failure is
absorbed into `None` and never escapes. -/
def analyze_address (env : FetchEnv) (address : String) :
    Option OpportunitySignal :=
  match analyzeAddressBody env address with
  | .ok r => r
  | .error _ => none

/-- `ContractScout.scan`: analyze every configured address
(`asyncio.gather` over `analyze_address`, which cannot raise) and keep the
truthy results (`[r for r in results if r]`). -/
def contractScan (env : FetchEnv) (addresses : List String) :
    List OpportunitySignal :=
  (addresses.map (analyze_address env)).filterMap id

/-! ## Helper lemmas and concrete data -/

/-- Both `except` clauses swallow the exception, leave the table untouched
and fall through to the end of the `message.process()` block. -/
theorem exceptClauses_error (table : Store) (e : PyExn) :
    exceptClauses table (.error e) = (table, none) := by
  cases e <;> rfl

/-- When the `try` body succeeds, the message is acknowledged and the new
table is kept. -/
theorem on_message_ok {table : Store} {connOk : Bool} {m : Message}
    {t : Store} (h : tryBody table connOk m = .ok t) :
    on_message table connOk m = (t, true) := by
  simp [on_message, h, exceptClauses]

/-- When the `try` body raises, the exception is caught, the table is
unchanged, and the message is still acknowledged. -/
theorem on_message_err {table : Store} {connOk : Bool} {m : Message}
    {e : PyExn} (h : tryBody table connOk m = .error e) :
    on_message table connOk m = (table, true) := by
  simp [on_message, h, exceptClauses_error]

/-- With a valid payload and a built row, the `try` body reduces to the
outcome of the insert. -/
theorem tryBody_insert {p : Payload} {r : Row} (table : Store) (connOk : Bool)
    (hv : validatePayload p = true) (hb : buildRow p = .ok r) :
    tryBody table connOk (.jsonBody p) =
      match executeInsert table connOk r with
      | .error e => .error (.dbError e)
      | .ok t => .ok t := by
  simp [tryBody, hv, hb]

/-- Inserting a row whose id is already in the table raises the
duplicate-key error. -/
theorem executeInsert_dup {table : Store} {r : Row}
    (h : table.any (fun row => row.id == r.id) = true) :
    executeInsert table true r = .error .duplicateKey := by
  simp [executeInsert, h]

/-- After appending a row, re-inserting it hits the unique key. -/
theorem executeInsert_append_self (table : Store) (r : Row) :
    executeInsert (table ++ [r]) true r = .error .duplicateKey := by
  apply executeInsert_dup
  simp

/-- A concrete well-formed wire payload (all fields of §6 present). -/
def samplePayload : Payload :=
  [("id", .jstr "sig-001"), ("scout_name", .jstr "market_scout"),
   ("signal_type", .jstr "arbitrage"), ("symbol", .jstr "BTC/USDT"),
   ("confidence", .jnum (8/10)), ("data", .jobj .nil),
   ("timestamp", .jstr "2025-06-01T12:00:00")]

/-- The row `buildRow` produces from `samplePayload`. -/
def sampleRow : Row :=
  { id := .jstr "sig-001", scout_name := .jstr "market_scout",
    signal_type := .jstr "arbitrage", symbol := .jstr "BTC/USDT",
    confidence := .jnum (8/10), data := .jobj .nil,
    timestamp := .jstr "2025-06-01T12:00:00", expires_at := none }

/-! ## Claims about the persistence consumer's error handling -/

/-- C1 (counterexample): a decoded, validated message whose Store insert
raises a storage-layer connection error IS acknowledged: the generic
`except Exception` handler catches the error and the
`message.process()` block exits normally, so the acked flag is not
`false` as the claim requires. -/
theorem C1_storage_error_counterexample :
    tryBody [] false (.jsonBody samplePayload) =
      .error (.dbError .connectionError) ∧
    (on_message [] false (.jsonBody samplePayload)).2 ≠ false := by
  constructor
  · rfl
  · decide

/-- C1 (amended): for every consumed message that decodes and passes field
validation but whose Store insert raises a storage-layer error, the
Persistence Consumer catches the error in its generic handler and still
acknowledges the message (the code explicitly acks to avoid a redelivery
loop), leaving the Store unchanged; the message will not be redelivered. -/
theorem C1_storage_error_still_acked (table : Store) (p : Payload) (r : Row)
    (hv : validatePayload p = true) (hb : buildRow p = .ok r) :
    on_message table false (.jsonBody p) = (table, true) := by
  have ht : tryBody table false (.jsonBody p) =
      .error (.dbError .connectionError) := by
    rw [tryBody_insert table false hv hb]
    rfl
  exact on_message_err ht

/-- C1 witness: the amended theorem at the concrete sample message. -/
theorem C1_witness :
    validatePayload samplePayload = true ∧
    on_message [] false (.jsonBody samplePayload) = ([], true) :=
  ⟨by decide, C1_storage_error_still_acked [] samplePayload sampleRow (by decide) (by rfl)⟩

/-- C2 (counterexample): inserting a signal whose id is already present in
the Store is NOT a silent no-op: the plain `INSERT` (no on-conflict
clause) raises a duplicate-key error, which escapes the insert call into
the consumer's generic exception handler. -/
theorem C2_duplicate_insert_counterexample :
    executeInsert [sampleRow] true sampleRow = .error .duplicateKey ∧
    tryBody [sampleRow] true (.jsonBody samplePayload) =
      .error (.dbError .duplicateKey) := by
  constructor
  · rfl
  · rfl

/-- C2 (amended): inserting a signal whose id is already present in the
Store raises a duplicate-key error (not a silent no-op); the consumer's
generic handler catches it and acknowledges, so the Store still holds
exactly one row per id, and delivering the same message to the
Persistence Consumer twice leaves the Store in a state identical to
single delivery. -/
theorem C2_redelivery_idempotent (table : Store) (m : Message) :
    on_message (on_message table true m).1 true m =
      ((on_message table true m).1, true) := by
  match m with
  | .invalidJson s =>
      have ht : tryBody table true (Message.invalidJson s) =
          .error .jsonDecodeError := rfl
      rw [on_message_err ht]
      exact on_message_err rfl
  | .jsonBody p =>
      by_cases hv : validatePayload p
      · match hb : buildRow p with
        | .error e =>
            have ht : tryBody table true (.jsonBody p) = .error e := by
              simp [tryBody, hv, hb]
            rw [on_message_err ht]
            exact on_message_err ht
        | .ok r =>
            match hins : executeInsert table true r with
            | .error e =>
                have ht : tryBody table true (.jsonBody p) =
                    .error (.dbError e) := by
                  rw [tryBody_insert table true hv hb, hins]
                rw [on_message_err ht]
                exact on_message_err ht
            | .ok t =>
                have hnew : t = table ++ [r] := by
                  by_cases hda : table.any (fun row => row.id == r.id)
                  · rw [executeInsert_dup hda] at hins; cases hins
                  · simp [executeInsert, hda] at hins
                    exact hins.symm
                have ht : tryBody table true (.jsonBody p) = .ok t := by
                  rw [tryBody_insert table true hv hb, hins]
                rw [on_message_ok ht]
                apply on_message_err
                rw [tryBody_insert t true hv hb, hnew,
                  executeInsert_append_self]
      · have ht : tryBody table true (.jsonBody p) = .ok table := by
          simp [tryBody, hv]
        rw [on_message_ok ht]
        exact on_message_ok ht

/-- C10: a message whose body is not valid JSON raises
`json.JSONDecodeError`, which its dedicated `except` clause catches; the
message is acknowledged and discarded with no Store insert, and the
consumer goes on to process the remaining messages of the session
unchanged. -/
theorem C10_invalid_json_acked_discarded (table : Store) (connOk : Bool)
    (raw : String) (rest : List Message) :
    tryBody table connOk (.invalidJson raw) = .error .jsonDecodeError ∧
    on_message table connOk (.invalidJson raw) = (table, true) ∧
    processMessages connOk table (.invalidJson raw :: rest) =
      processMessages connOk table rest := by
  have ht : tryBody table connOk (Message.invalidJson raw) =
      .error .jsonDecodeError := rfl
  refine ⟨rfl, on_message_err ht, ?_⟩
  simp [processMessages, on_message_err ht]

/-- Unpacking a successful validation into the four required fields. -/
theorem validate_fields {p : Payload} (h : validatePayload p = true) :
    (lookupField p "id").isSome = true ∧
    (lookupField p "scout_name").isSome = true ∧
    (lookupField p "symbol").isSome = true ∧
    (lookupField p "timestamp").isSome = true := by
  simpa [validatePayload] using h

/-- A payload with any of the four required fields absent fails
validation. -/
theorem validate_false_of_missing {p : Payload}
    (h : lookupField p "id" = none ∨ lookupField p "scout_name" = none ∨
      lookupField p "symbol" = none ∨ lookupField p "timestamp" = none) :
    validatePayload p = false := by
  by_contra hv
  obtain ⟨h1, h2, h3, h4⟩ := validate_fields (Bool.of_not_eq_false hv)
  rcases h with h | h | h | h <;> simp [h] at h1 h2 h3 h4

/-- C4: a payload missing `id`, `scout_name`, `symbol` or `timestamp`
fails the consumer's shape validation; the early `return` exits the
`message.process()` block normally, so the message is acknowledged
immediately, no Store row is inserted, and the remaining messages of the
session are processed exactly as if the malformed one had never
arrived. -/
theorem C4_malformed_acked_no_rows (table : Store) (connOk : Bool)
    (p : Payload) (rest : List Message)
    (h : lookupField p "id" = none ∨ lookupField p "scout_name" = none ∨
      lookupField p "symbol" = none ∨ lookupField p "timestamp" = none) :
    on_message table connOk (.jsonBody p) = (table, true) ∧
    processMessages connOk table (.jsonBody p :: rest) =
      processMessages connOk table rest := by
  have hv : validatePayload p = false := validate_false_of_missing h
  have ht : tryBody table connOk (.jsonBody p) = .ok table := by
    simp [tryBody, hv]
  refine ⟨on_message_ok ht, ?_⟩
  simp [processMessages, on_message_ok ht]

/-- A concrete payload missing `symbol` (the spec's §8 example). -/
def missingSymbolPayload : Payload :=
  [("id", .jstr "sig-002"), ("scout_name", .jstr "defi_scout"),
   ("signal_type", .jstr "defi_pool"), ("confidence", .jnum (9/10)),
   ("data", .jobj .nil), ("timestamp", .jstr "2025-06-01T12:05:00")]

/-- C4 witness: the payload missing `symbol` is acked, adds no row, and a
following valid message is processed as usual. -/
theorem C4_witness :
    lookupField missingSymbolPayload "symbol" = none ∧
    on_message [] true (.jsonBody missingSymbolPayload) = ([], true) ∧
    processMessages true []
        [.jsonBody missingSymbolPayload, .jsonBody samplePayload] =
      processMessages true [] [.jsonBody samplePayload] := by
  have h := C4_malformed_acked_no_rows [] true missingSymbolPayload
    [.jsonBody samplePayload] (Or.inr (Or.inr (Or.inl (by decide))))
  exact ⟨by decide, h.1, h.2⟩

/-- C9: a decoded payload that contains `id`, `scout_name`, `symbol` and
`timestamp` passes validation; while the insert's values are built, the
first subscript among `signal_type`, `confidence`, `data` whose key is
absent raises a `KeyError`, which the generic `except Exception` handler
catches; the message is acknowledged, zero rows are stored, and the drop
is silent (no rejection at validation). -/
theorem C9_missing_optional_field_keyerror (table : Store) (connOk : Bool)
    (p : Payload) (hv : validatePayload p = true) :
    (lookupField p "signal_type" = none →
      tryBody table connOk (.jsonBody p) = .error (.keyError "signal_type") ∧
      on_message table connOk (.jsonBody p) = (table, true)) ∧
    (lookupField p "signal_type" ≠ none → lookupField p "confidence" = none →
      tryBody table connOk (.jsonBody p) = .error (.keyError "confidence") ∧
      on_message table connOk (.jsonBody p) = (table, true)) ∧
    (lookupField p "signal_type" ≠ none → lookupField p "confidence" ≠ none →
      lookupField p "data" = none →
      tryBody table connOk (.jsonBody p) = .error (.keyError "data") ∧
      on_message table connOk (.jsonBody p) = (table, true)) := by
  obtain ⟨h1, h2, h3, h4⟩ := validate_fields hv
  obtain ⟨vid, hid⟩ := Option.isSome_iff_exists.mp h1
  obtain ⟨vsn, hsn⟩ := Option.isSome_iff_exists.mp h2
  obtain ⟨vsym, hsym⟩ := Option.isSome_iff_exists.mp h3
  obtain ⟨vts, hts⟩ := Option.isSome_iff_exists.mp h4
  refine ⟨fun hst => ?_, fun hst hconf => ?_, fun hst hconf hdat => ?_⟩
  · have hb : buildRow p = .error (.keyError "signal_type") := by
      simp [buildRow, bind, Except.bind, hid, hsn, hst]
    have ht : tryBody table connOk (.jsonBody p) =
        .error (.keyError "signal_type") := by
      simp [tryBody, hv, hb]
    exact ⟨ht, on_message_err ht⟩
  · obtain ⟨vst, hst'⟩ := Option.ne_none_iff_exists'.mp hst
    have hb : buildRow p = .error (.keyError "confidence") := by
      simp [buildRow, bind, Except.bind, hid, hsn, hst', hsym, hconf]
    have ht : tryBody table connOk (.jsonBody p) =
        .error (.keyError "confidence") := by
      simp [tryBody, hv, hb]
    exact ⟨ht, on_message_err ht⟩
  · obtain ⟨vst, hst'⟩ := Option.ne_none_iff_exists'.mp hst
    obtain ⟨vconf, hconf'⟩ := Option.ne_none_iff_exists'.mp hconf
    have hb : buildRow p = .error (.keyError "data") := by
      simp [buildRow, bind, Except.bind, hid, hsn, hst', hsym, hconf', hdat]
    have ht : tryBody table connOk (.jsonBody p) =
        .error (.keyError "data") := by
      simp [tryBody, hv, hb]
    exact ⟨ht, on_message_err ht⟩

/-- A concrete payload passing validation but missing `signal_type`. -/
def missingTypePayload : Payload :=
  [("id", .jstr "sig-003"), ("scout_name", .jstr "chain_scout"),
   ("symbol", .jstr "Ethereum"), ("timestamp", .jstr "2025-06-01T12:10:00"),
   ("confidence", .jnum (1/2)), ("data", .jobj .nil)]

/-- C9 witness: the payload missing `signal_type` passes validation, the
insert construction raises `KeyError('signal_type')`, and the message is
acked with the Store unchanged. -/
theorem C9_witness :
    validatePayload missingTypePayload = true ∧
    tryBody [] true (.jsonBody missingTypePayload) =
      .error (.keyError "signal_type") ∧
    on_message [] true (.jsonBody missingTypePayload) = ([], true) :=
  ⟨by decide,
    (C9_missing_optional_field_keyerror [] true missingTypePayload
      (by decide)).1 (by decide)⟩

/-! ## Claims about the loops -/

/-- C6: every failure the body of `PersistenceService.run` can raise as an
`Exception` — the broker connection failure in particular — is caught by
one of the two `except` clauses, each of which sleeps a fixed 10 seconds
before the `while True` loop reconnects; over any finite trace of such
failures the loop performs exactly one 10-second sleep per failure and
never exits, so `run()` never terminates because of a connection error. -/
theorem C6_connection_failures_retry_forever (connOk : Bool)
    (st : ServiceState) (events : List LoopEvent)
    (h : ∀ e ∈ events, e ≠ LoopEvent.cancelled) :
    (runLoop connOk st events).2 = false ∧
    ((runLoop connOk st events).1).sleeps =
      st.sleeps ++ events.map (fun _ => 10) := by
  induction events generalizing st with
  | nil => simp [runLoop]
  | cons e es ih =>
      match e with
      | .amqpConnectionError =>
          have := ih { st with sleeps := st.sleeps ++ [10] }
            (fun x hx => h x (List.mem_cons_of_mem _ hx))
          simpa [runLoop, runIteration] using this
      | .sessionException ms =>
          have := ih { store := processMessages connOk st.store ms,
                       sleeps := st.sleeps ++ [10] }
            (fun x hx => h x (List.mem_cons_of_mem _ hx))
          simpa [runLoop, runIteration] using this
      | .cancelled =>
          exact absurd rfl (h .cancelled (List.mem_cons_self _ _))

/-- C6 witness: a broker connection failure followed by a session
exception; the loop sleeps 10 seconds for each and is still running. -/
theorem C6_witness :
    (runLoop true ⟨[], []⟩
      [LoopEvent.amqpConnectionError, LoopEvent.sessionException []]).2
        = false ∧
    ((runLoop true ⟨[], []⟩
      [LoopEvent.amqpConnectionError, LoopEvent.sessionException []]).1).sleeps
        = [10, 10] :=
  C6_connection_failures_retry_forever true ⟨[], []⟩
    [.amqpConnectionError, .sessionException []] (by decide)

/-- C3 (counterexample): with the event stream whose very first `scan()`
raises an unexpected exception, the runner loop given fuel for two
iterations does not reach a second scan: the exception matches no
`except` clause (only `KeyboardInterrupt` is handled), so the loop exits
through the `finally` instead of continuing with the next scan. -/
theorem C3_scan_exception_counterexample :
    (runnerMain (fun _ => IterEvent.scanRaises) 2).exit ≠ none ∧
    (runnerMain (fun _ => IterEvent.scanRaises) 2).scanCalls = 1 := by
  decide

/-- Auxiliary: after `k` successful iterations from index `i`, a `scan()`
that raises ends the loop: the `finally` runs `cleanup()` once and the
exception propagates out of `main`. -/
theorem runnerLoop_crashes (iters : Nat → IterEvent) (fuel i k : Nat)
    (hfuel : k < fuel)
    (hok : ∀ j, j < k → ∃ n, iters (i + j) = IterEvent.scanOk n)
    (hraise : iters (i + k) = IterEvent.scanRaises) :
    runnerLoop iters fuel i =
      { scanCalls := i + k + 1, cleanups := 1, exit := some .crashed } := by
  induction k generalizing fuel i with
  | zero =>
      match fuel, hfuel with
      | fuel + 1, _ =>
          simp only [Nat.add_zero] at hraise
          simp [runnerLoop, hraise]
  | succ k ih =>
      match fuel, hfuel with
      | fuel + 1, hfuel =>
          obtain ⟨n, hn⟩ := hok 0 (Nat.succ_pos k)
          rw [Nat.add_zero] at hn
          have h1 : runnerLoop iters (fuel + 1) i = runnerLoop iters fuel (i + 1) := by
            simp [runnerLoop, hn]
          rw [h1, ih fuel (i + 1) (Nat.lt_of_succ_lt_succ hfuel)
            (fun j hj => by
              have := hok (j + 1) (Nat.succ_lt_succ hj)
              rwa [Nat.add_comm j 1, ← Nat.add_assoc] at this)
            (by rwa [Nat.add_assoc, Nat.add_comm 1 k] )]
          congr 1
          omega

/-- C3 (amended): an unexpected exception raised out of a scout's
`scan()` is not caught by the driving loop (whose only handler is for
`KeyboardInterrupt`): after `k` successful iterations the raising scan is
the last one, the loop stops, `cleanup()` runs once via the `finally`,
and the exception propagates out of `main` — the scout process does not
survive a transient `scan()` error. -/
theorem C3_scan_exception_ends_loop (iters : Nat → IterEvent) (fuel k : Nat)
    (hfuel : k < fuel)
    (hok : ∀ j, j < k → ∃ n, iters j = IterEvent.scanOk n)
    (hraise : iters k = IterEvent.scanRaises) :
    runnerMain iters fuel =
      { scanCalls := k + 1, cleanups := 1, exit := some .crashed } := by
  have := runnerLoop_crashes iters fuel 0 k hfuel
    (fun j hj => by simpa using hok j hj) (by simpa using hraise)
  simpa [runnerMain] using this

/-- C3 witness: two successful scans, then a scan that raises; the loop
ends with three scan calls, one cleanup, and a crash exit. -/
theorem C3_witness :
    runnerMain (fun j => if j < 2 then IterEvent.scanOk 1 else IterEvent.scanRaises) 5 =
      { scanCalls := 3, cleanups := 1, exit := some .crashed } :=
  C3_scan_exception_ends_loop
    (fun j => if j < 2 then IterEvent.scanOk 1 else IterEvent.scanRaises) 5 2
    (by decide)
    (fun j hj => ⟨1, by simp [hj]⟩)
    (by decide)

/-- C8: whenever a runner's driving loop exits — by an exception raised
out of the scan loop (uncaught, `exit = crashed`) or by external
interruption (caught, `exit = interrupted`) — the `finally` block has run
`scout.cleanup()` exactly once. -/
theorem C8_cleanup_once_on_exit (iters : Nat → IterEvent) (fuel : Nat)
    (x : LoopExit) (h : (runnerMain iters fuel).exit = some x) :
    (runnerMain iters fuel).cleanups = 1 := by
  unfold runnerMain at *
  generalize hi : 0 = i at *
  clear hi
  induction fuel generalizing i with
  | zero => simp [runnerLoop] at h
  | succ fuel ih =>
      unfold runnerLoop at h ⊢
      match hev : iters i with
      | .scanOk n => simp only [hev] at h ⊢; exact ih (i + 1) h
      | .scanRaises => simp [hev]
      | .interrupt => simp [hev]

/-- C8 witness: an interrupt in the first iteration exits the loop with
exactly one `cleanup()` call. -/
theorem C8_witness :
    (runnerMain (fun _ => IterEvent.interrupt) 3).cleanups = 1 :=
  C8_cleanup_once_on_exit (fun _ => IterEvent.interrupt) 3
    LoopExit.interrupted (by decide)

/-! ## Claims about the signal factory and the contract scout -/

/-- C5: the signal factory clamps every confidence value to [0,1]; in
particular input -0.5 produces 0.0 and input 1.7 produces 1.0. -/
theorem C5_confidence_clamped (scoutName idStamp : String) (now : ℚ)
    (signalType symbol : String) (c : ℚ) (data : JFields) (m : ℚ) :
    0 ≤ (create_opportunity scoutName idStamp now signalType symbol
          c data m).confidence ∧
    (create_opportunity scoutName idStamp now signalType symbol
          c data m).confidence ≤ 1 ∧
    (create_opportunity scoutName idStamp now signalType symbol
          (-1/2) data m).confidence = 0 ∧
    (create_opportunity scoutName idStamp now signalType symbol
          (17/10) data m).confidence = 1 := by
  refine ⟨?_, ?_, ?_, ?_⟩
  · exact le_min (by norm_num) (le_max_left 0 c)
  · exact min_le_left 1 _
  · simp [create_opportunity]
    norm_num
  · simp [create_opportunity]
    norm_num

/-- C7: if the per-item analysis of one address raises inside its `try`
block, `ContractScout.analyze_address` absorbs the exception into `None`,
and `scan()` returns exactly the valid signals of the remaining
addresses: the failure never escalates to abort the whole scan. -/
theorem C7_scan_isolation (env : FetchEnv) (pre post : List String)
    (a : String) (e : String) (h : analyzeAddressBody env a = .error e) :
    contractScan env (pre ++ a :: post) =
      contractScan env pre ++ contractScan env post := by
  have ha : analyze_address env a = none := by simp [analyze_address, h]
  simp [contractScan, List.map_append, List.filterMap_append, ha]

/-- A concrete scan environment in which the lookup for the second of
three addresses raises and the other two succeed. -/
def demoEnv : FetchEnv :=
  { goplus := fun a =>
      if a = "0xaaa2" then .error "TimeoutError"
      else .ok (some { total_score := some 20 }),
    etherscan := fun _ => .ok none,
    chain := "eth",
    mkId := fun a => "opp-" ++ a,
    now := 1717243200 }

/-- C7 witness: with item 2 of 3 raising, `scan()` still returns the two
valid signals produced for items 1 and 3. -/
theorem C7_witness :
    analyzeAddressBody demoEnv "0xaaa2" = .error "TimeoutError" ∧
    contractScan demoEnv ["0xaaa1", "0xaaa2", "0xaaa3"] =
      contractScan demoEnv ["0xaaa1"] ++ contractScan demoEnv ["0xaaa3"] ∧
    (contractScan demoEnv ["0xaaa1", "0xaaa2", "0xaaa3"]).length = 2 :=
  ⟨rfl,
    C7_scan_isolation demoEnv ["0xaaa1"] ["0xaaa3"] "0xaaa2" "TimeoutError" rfl,
    rfl⟩
